import Mathlib

/-!
# Verification of the go-wiki server (`wiki.go`)

Shallow embedding of the single source file `wiki.go` of biximilien/go-wiki:
a minimal wiki server backed by a PostgreSQL table `pages (id, title, body)`
with a uniqueness constraint named `title` on the title column.

Modelling conventions:
* Bytes (`[]byte`) are lists of naturals; Go's `[]byte(string)` conversion is
  the UTF-8 encoding, spelled out explicitly (`strBytes`).
* The `pages` table is a list of rows plus the serial counter feeding the
  surrogate `id` column.  The two SQL statements of `wiki.go` (a parameterised
  upsert and a select by title) are embedded as `Store.upsert` and
  `Store.selectByTitle`.
* The pgx connection is the table state plus an optional injected engine
  failure (`failure`): when set, every statement errors with that message,
  modelling the I/O and query errors pgx can return.  `pgx.ErrNoRows` (what
  `QueryRow(...).Scan` returns on an empty result) is a distinct error value,
  modelled by `LoadError.noRows`.  A log of executed statements records which
  store operations a request performed.
* `http.ServeMux` dispatch is modelled over the patterns registered in `main`
  ("/css/", "/view/", "/edit/", "/save/", "/"), longest pattern first; the
  mux's canonicalisation redirect for non-clean paths is not modelled, paths
  are taken as already clean.  `r.FormValue` is modelled over parsed form
  data; `wiki.go` never inspects the HTTP method, so requests carry none.
* Template files live outside the Go source; `renderTemplate` is modelled as
  the response value recording which template is executed with which page.
-/

namespace GoWiki

/-- UTF-8 encoding of one character, byte by byte, as Go's string-to-bytes
conversion produces it. -/
def utf8EncodeChar (c : Char) : List Nat :=
  let v := c.toNat
  if v < 128 then [v]
  else if v < 2048 then [192 + v / 64, 128 + v % 64]
  else if v < 65536 then [224 + v / 4096, 128 + (v / 64) % 64, 128 + v % 64]
  else [240 + v / 262144, 128 + (v / 4096) % 64, 128 + (v / 64) % 64, 128 + v % 64]

/-- Go's `[]byte(s)`: the UTF-8 bytes of a string. -/
def strBytes (s : String) : List Nat :=
  (s.data.map utf8EncodeChar).flatten

/-- The Go struct `Page` of `wiki.go`. -/
structure Page where
  ID : Int
  Title : String
  Body : List Nat
deriving DecidableEq, Repr

/-- One row of the `pages` table: columns `(id, title UNIQUE, body)`. -/
structure Row where
  id : Int
  title : String
  body : List Nat
deriving DecidableEq, Repr

/-- The `pages` table, plus the serial sequence feeding the `id` column. -/
structure Store where
  rows : List Row
  nextId : Int
deriving DecidableEq, Repr

/-- `SELECT id, body FROM pages WHERE title=$1`, as consumed by
`QueryRow(...).Scan`: the first row matching the title, if any. -/
def Store.selectByTitle (s : Store) (title : String) : Option Row :=
  (s.rows.filter (fun r => r.title == title)).head?

/-- `INSERT INTO pages (title, body) VALUES ($1, $2) ON CONFLICT ON CONSTRAINT
title DO UPDATE SET body = $2`: insert a fresh row when no row carries the
title, otherwise update only the `body` column of the conflicting row(s). -/
def Store.upsert (s : Store) (title : String) (body : List Nat) : Store :=
  if s.rows.any (fun r => r.title == title) then
    { s with
      rows := s.rows.map (fun r => if r.title == title then { r with body := body } else r) }
  else
    { rows := s.rows ++ [{ id := s.nextId, title := title, body := body }],
      nextId := s.nextId + 1 }

/-- A statement executed over the connection. -/
inductive DbOp
  | execUpsert (title : String) (body : List Nat)
  | querySelect (title : String)
deriving DecidableEq, Repr

/-- The process-wide pgx connection: table state, an optional injected engine
failure (every statement errors with it when set), and the log of statements
executed so far. -/
structure Conn where
  store : Store
  failure : Option String
  log : List DbOp
deriving DecidableEq, Repr

/-- The errors `loadPage` can surface: `pgx.ErrNoRows` from `Scan` on an empty
result, or any other engine error. -/
inductive LoadError
  | noRows
  | storage (msg : String)
deriving DecidableEq, Repr

/-- `func (p *Page) save(conn *pgx.Conn) error`: execute the upsert; the
result rows are discarded, only the error is propagated. -/
def Page.save (p : Page) (conn : Conn) : Except String Unit × Conn :=
  match conn.failure with
  | some msg =>
    (Except.error msg, { conn with log := conn.log ++ [DbOp.execUpsert p.Title p.Body] })
  | none =>
    (Except.ok (),
     { conn with
       store := conn.store.upsert p.Title p.Body,
       log := conn.log ++ [DbOp.execUpsert p.Title p.Body] })

/-- `func loadPage(title string, conn *pgx.Conn) (*Page, error)`: run the
select, scan `(id, body)`, and rebuild the page with the requested title. -/
def loadPage (title : String) (conn : Conn) : Except LoadError Page × Conn :=
  match conn.failure with
  | some msg =>
    (Except.error (LoadError.storage msg),
     { conn with log := conn.log ++ [DbOp.querySelect title] })
  | none =>
    match conn.store.selectByTitle title with
    | none =>
      (Except.error LoadError.noRows,
       { conn with log := conn.log ++ [DbOp.querySelect title] })
    | some r =>
      (Except.ok { ID := r.id, Title := title, Body := r.body },
       { conn with log := conn.log ++ [DbOp.querySelect title] })

/-- An HTTP request as the handlers observe it: URL path and parsed form
data (`wiki.go` never reads the method). -/
structure Request where
  path : String
  form : List (String × String)
deriving DecidableEq, Repr

/-- Go's `r.FormValue(key)`: the first value for the key, `""` if absent. -/
def formValue (form : List (String × String)) (key : String) : String :=
  match form.lookup key with
  | some v => v
  | none => ""

/-- The response a handler writes. -/
inductive Response
  | render (tmpl : String) (p : Page)
  | redirect (location : String) (status : Nat)
  | httpError (msg : String) (status : Nat)
  | notFound
  | staticFile (name : String)
deriving DecidableEq, Repr

/-- The character class `[a-zA-Z0-9]` of `validPath`. -/
def isTitleChar (c : Char) : Bool :=
  (97 ≤ c.toNat && c.toNat ≤ 122) || (65 ≤ c.toNat && c.toNat ≤ 90)
    || (48 ≤ c.toNat && c.toNat ≤ 57)

/-- The title pattern `[a-zA-Z0-9]+` on a whole string. -/
def isTitle (s : String) : Bool :=
  !s.data.isEmpty && s.data.all isTitleChar

/-- `validPath.FindStringSubmatch` for the anchored regular expression
`/(edit|save|view)/([a-zA-Z0-9]+)` with `^...$` anchors: the path must be a
slash, one of the three action words, a slash, and a non-empty alphanumeric
title, with nothing after it; on success the action and title are returned. -/
def validPathMatch (path : String) : Option (String × String) :=
  match path.data with
  | [] => none
  | c :: rest =>
    if c == '/' then
      let actionChars := rest.takeWhile (fun d => !(d == '/'))
      match rest.dropWhile (fun d => !(d == '/')) with
      | [] => none
      | _ :: titleChars =>
        let action := String.mk actionChars
        if (action == "edit" || action == "save" || action == "view")
            && isTitle (String.mk titleChars) then
          some (action, String.mk titleChars)
        else none
    else none

/-- `func makeHandler(...)`: run the wrapped handler on the captured title
when the path matches `validPath`, answer `http.NotFound` otherwise. -/
def makeHandler (fn : Request → String → Conn → Response × Conn)
    (conn : Conn) (req : Request) : Response × Conn :=
  match validPathMatch req.path with
  | none => (Response.notFound, conn)
  | some m => fn req m.2 conn

/-- `func viewHandler`: load the page; on any error redirect (302) to the
edit action for the same title, otherwise execute the `view` template. -/
def viewHandler (_r : Request) (title : String) (conn : Conn) : Response × Conn :=
  let res := loadPage title conn
  match res.1 with
  | Except.error _ => (Response.redirect ("/edit/" ++ title) 302, res.2)
  | Except.ok p => (Response.render "view" p, res.2)

/-- `func editHandler`: load the page; on any error fall back to a fresh
`&Page{Title: title}` (zero id, nil body), then execute the `edit`
template.  No redirect is ever issued. -/
def editHandler (_r : Request) (title : String) (conn : Conn) : Response × Conn :=
  let res := loadPage title conn
  match res.1 with
  | Except.error _ =>
    (Response.render "edit" { ID := 0, Title := title, Body := [] }, res.2)
  | Except.ok p => (Response.render "edit" p, res.2)

/-- `func saveHandler`: read form field `body`, build the page, save it; on
error answer 500 with the error text, on success redirect (302) to the view
action for the title. -/
def saveHandler (r : Request) (title : String) (conn : Conn) : Response × Conn :=
  let body := strBytes (formValue r.form "body")
  let p : Page := { ID := 0, Title := title, Body := body }
  let res := p.save conn
  match res.1 with
  | Except.error msg => (Response.httpError msg 500, res.2)
  | Except.ok _ => (Response.redirect ("/view/" ++ title) 302, res.2)

/-- `l₁` begins with `l₂` (the prefix test behind `http.ServeMux` subtree
patterns). -/
def hasPre (pre : String) (s : String) : Bool :=
  pre.data.isPrefixOf s.data

/-- The route table registered in `main`, plus the mux's implicit redirect of
a subtree root without its trailing slash. -/
inductive Route
  | css | view | edit | save | root | slashRedirect
deriving DecidableEq, Repr

/-- `http.ServeMux` dispatch over the five patterns of `main`: a pattern
ending in `/` owns the subtree below it, the longest registered pattern wins,
`/` catches every remaining path, and a request for a registered subtree root
without its trailing slash (`/view`, `/edit`, `/save`, `/css`) is answered
with the mux's implicit 301 redirect to the slash form. -/
def muxRoute (path : String) : Route :=
  if path == "/css" || path == "/view" || path == "/edit" || path == "/save" then
    Route.slashRedirect
  else if hasPre "/css/" path then Route.css
  else if hasPre "/view/" path then Route.view
  else if hasPre "/edit/" path then Route.edit
  else if hasPre "/save/" path then Route.save
  else Route.root

/-- One request through the server wired up in `main`: static files under
`/css/` (prefix stripped), the three wrapped wiki handlers, and the root
handler that redirects everything else to `/view/FrontPage`. -/
def serve (conn : Conn) (req : Request) : Response × Conn :=
  match muxRoute req.path with
  | Route.css => (Response.staticFile (String.mk (req.path.data.drop 5)), conn)
  | Route.view => makeHandler viewHandler conn req
  | Route.edit => makeHandler editHandler conn req
  | Route.save => makeHandler saveHandler conn req
  | Route.root => (Response.redirect "/view/FrontPage" 302, conn)
  | Route.slashRedirect => (Response.redirect (req.path ++ "/") 301, conn)

/-- A connection onto an empty `pages` table, serial starting at 1. -/
def emptyConn : Conn :=
  { store := { rows := [], nextId := 1 }, failure := none, log := [] }

/-- `Page.save` applied to a list of `(title, body)` pairs in order. -/
def applySaves (saves : List (String × List Nat)) (conn : Conn) : Conn :=
  saves.foldl
    (fun c sb => (Page.save { ID := 0, Title := sb.1, Body := sb.2 } c).2) conn

/-- Titles are pairwise distinct across the table: the uniqueness constraint
on the `title` column. -/
def Store.uniqueTitles (s : Store) : Prop :=
  s.rows.Pairwise (fun a b => a.title ≠ b.title)

/-- A healthy connection holding a single page `Foo` with body `[72]`. -/
def connFoo : Conn :=
  { store := { rows := [{ id := 1, title := "Foo", body := [72] }], nextId := 2 },
    failure := none, log := [] }

/-- The page stored in `connFoo`. -/
def pageFoo : Page := { ID := 1, Title := "Foo", Body := [72] }

/-- A connection whose engine fails every statement with "boom". -/
def connBoom : Conn :=
  { store := { rows := [], nextId := 1 }, failure := some "boom", log := [] }

/-- A plain GET request for the page `Foo`. -/
def req0 : Request := { path := "/view/Foo", form := [] }

/-- A save request whose form carries `body=Hi`. -/
def reqSave : Request := { path := "/save/Foo", form := [("body", "Hi")] }

/-! ## Helper lemmas about the embedded store and connection -/

/-- `Page.save` never changes the failure state of the connection. -/
theorem save_snd_failure (p : Page) (c : Conn) : ((p.save c).2).failure = c.failure := by
  cases h : c.failure <;> simp [Page.save, h]

/-- On a healthy connection, `Page.save` applies the upsert and logs it. -/
theorem save_snd_of_ok (p : Page) (c : Conn) (h : c.failure = none) :
    (p.save c).2
      = { c with
          store := c.store.upsert p.Title p.Body,
          log := c.log ++ [DbOp.execUpsert p.Title p.Body] } := by
  simp [Page.save, h]

/-- On a failing connection, `Page.save` leaves the table untouched. -/
theorem save_snd_of_err (p : Page) (c : Conn) (msg : String) (h : c.failure = some msg) :
    (p.save c).2 = { c with log := c.log ++ [DbOp.execUpsert p.Title p.Body] } := by
  simp [Page.save, h]

/-- `loadPage` only appends the select to the statement log. -/
theorem loadPage_snd (title : String) (c : Conn) :
    (loadPage title c).2 = { c with log := c.log ++ [DbOp.querySelect title] } := by
  cases hf : c.failure with
  | some m => simp [loadPage, hf]
  | none => cases hs : c.store.selectByTitle title <;> simp [loadPage, hf, hs]

/-- Updating the bodies of the rows matching a title keeps the first match
in place, now holding the new body. -/
theorem head_filter_map_setBody (l : List Row) (title : String) (body : List Nat)
    (h : l.any (fun r => r.title == title) = true) :
    ∃ r, ((l.map (fun r => if r.title == title then { r with body := body } else r)).filter
        (fun r => r.title == title)).head? = some r
      ∧ r.title = title ∧ r.body = body := by
  induction l with
  | nil => simp at h
  | cons a l ih =>
    by_cases hp : a.title = title
    · refine ⟨{ a with body := body }, ?_, hp, rfl⟩
      simp [List.filter_cons, hp]
    · have h' : l.any (fun r => r.title == title) = true := by
        simpa [List.any_cons, hp] using h
      obtain ⟨r, hr, ht, hb⟩ := ih h'
      refine ⟨r, ?_, ht, hb⟩
      simpa [List.filter_cons, hp] using hr

/-- When no row matches the title, the filter by that title is empty. -/
theorem filter_title_eq_nil (l : List Row) (title : String)
    (h : l.any (fun r => r.title == title) = false) :
    l.filter (fun r => r.title == title) = [] := by
  rw [List.filter_eq_nil_iff]
  intro a ha
  rw [List.any_eq_false] at h
  exact h a ha

/-- After an upsert, selecting the upserted title yields a row holding the
new body. -/
theorem selectByTitle_upsert (s : Store) (title : String) (body : List Nat) :
    ∃ r, (s.upsert title body).selectByTitle title = some r
      ∧ r.title = title ∧ r.body = body := by
  by_cases h : s.rows.any (fun r => r.title == title) = true
  · have hm := head_filter_map_setBody s.rows title body h
    simpa [Store.upsert, Store.selectByTitle, h] using hm
  · have hb : s.rows.any (fun r => r.title == title) = false := by simpa using h
    refine ⟨{ id := s.nextId, title := title, body := body }, ?_, rfl, rfl⟩
    simp [Store.upsert, Store.selectByTitle, hb, List.filter_append,
      filter_title_eq_nil s.rows title hb]

/-- When no row matches the title, selecting it yields nothing. -/
theorem selectByTitle_eq_none (s : Store) (title : String)
    (h : ∀ r ∈ s.rows, r.title ≠ title) :
    s.selectByTitle title = none := by
  unfold Store.selectByTitle
  rw [filter_title_eq_nil]
  · rfl
  · rw [List.any_eq_false]
    intro a ha
    simpa using h a ha

/-- An upsert of a different title never introduces a row carrying the
observed title. -/
theorem upsert_no_title (s : Store) (t title : String) (body : List Nat)
    (ht : t ≠ title) (h : ∀ r ∈ s.rows, r.title ≠ title) :
    ∀ r ∈ (s.upsert t body).rows, r.title ≠ title := by
  unfold Store.upsert
  by_cases hc : s.rows.any (fun r => r.title == t) = true
  · simp only [hc, if_true]
    intro r hr
    obtain ⟨a, ha, rfl⟩ := List.mem_map.mp hr
    by_cases hat : a.title = t <;> simpa [hat, ht] using h a ha
  · have hb : s.rows.any (fun r => r.title == t) = false := by simpa using hc
    simp only [hb, Bool.false_eq_true, if_false]
    intro r hr
    rcases List.mem_append.mp hr with h1 | h2
    · exact h r h1
    · have : r = { id := s.nextId, title := t, body := body } := by simpa using h2
      simpa [this] using ht

/-- Unfolding one step of `applySaves`. -/
theorem applySaves_cons (sb : String × List Nat) (t : List (String × List Nat))
    (conn : Conn) :
    applySaves (sb :: t) conn
      = applySaves t ((Page.save { ID := 0, Title := sb.1, Body := sb.2 } conn).2) := rfl

/-- `applySaves` never changes the failure state. -/
theorem applySaves_failure (saves : List (String × List Nat)) (conn : Conn) :
    (applySaves saves conn).failure = conn.failure := by
  induction saves generalizing conn with
  | nil => rfl
  | cons sb t ih =>
    rw [applySaves_cons, ih, save_snd_failure]

/-- A title absent from the table stays absent across saves to other
titles. -/
theorem applySaves_no_title (saves : List (String × List Nat)) (conn : Conn)
    (title : String) (hc : ∀ r ∈ conn.store.rows, r.title ≠ title)
    (h : ∀ sb ∈ saves, sb.1 ≠ title) :
    ∀ r ∈ (applySaves saves conn).store.rows, r.title ≠ title := by
  induction saves generalizing conn with
  | nil => exact hc
  | cons sb t ih =>
    rw [applySaves_cons]
    refine ih _ ?_ (fun x hx => h x (List.mem_cons_of_mem _ hx))
    cases hf : conn.failure with
    | some m => simpa [Page.save, hf] using hc
    | none =>
      simp only [Page.save, hf]
      exact upsert_no_title conn.store sb.1 title sb.2 (h sb (List.mem_cons_self _ _)) hc

/-- The upsert keeps the title column pairwise distinct. -/
theorem upsert_uniqueTitles (s : Store) (title : String) (body : List Nat)
    (h : s.uniqueTitles) : (s.upsert title body).uniqueTitles := by
  unfold Store.upsert Store.uniqueTitles at *
  by_cases hc : s.rows.any (fun r => r.title == title) = true
  · simp only [hc, if_true]
    rw [List.pairwise_map]
    refine h.imp ?_
    intro a b hab
    by_cases ha : a.title = title <;> by_cases hb : b.title = title <;>
      simp [ha, hb, hab] <;> simp [ha, hb] at hab ⊢ <;> try exact hab
  · have hb : s.rows.any (fun r => r.title == title) = false := by simpa using hc
    simp only [hb, Bool.false_eq_true, if_false]
    rw [List.pairwise_append]
    refine ⟨h, by simp, ?_⟩
    intro a ha b hbm
    have hbe : b = { id := s.nextId, title := title, body := body } := by simpa using hbm
    rw [List.any_eq_false] at hb
    have := hb a ha
    simpa [hbe] using this

/-- `viewHandler` passes the loaded connection straight through. -/
theorem viewHandler_snd (r : Request) (t : String) (conn : Conn) :
    (viewHandler r t conn).2 = (loadPage t conn).2 := by
  cases h : (loadPage t conn).1 <;> simp [viewHandler, h]

/-- `editHandler` passes the loaded connection straight through. -/
theorem editHandler_snd (r : Request) (t : String) (conn : Conn) :
    (editHandler r t conn).2 = (loadPage t conn).2 := by
  cases h : (loadPage t conn).1 <;> simp [editHandler, h]

/-- `saveHandler` on a healthy connection: upsert the form body, then
redirect to the view action. -/
theorem saveHandler_ok_eq (r : Request) (title : String) (conn : Conn)
    (hok : conn.failure = none) :
    saveHandler r title conn
      = (Response.redirect ("/view/" ++ title) 302,
         { conn with
           store := conn.store.upsert title (strBytes (formValue r.form "body")),
           log := conn.log ++ [DbOp.execUpsert title (strBytes (formValue r.form "body"))] }) := by
  simp [saveHandler, Page.save, hok]

/-- `saveHandler` on a failing connection: answer 500 with the error text,
no redirect, table untouched. -/
theorem saveHandler_err_eq (r : Request) (title : String) (conn : Conn)
    (msg : String) (herr : conn.failure = some msg) :
    saveHandler r title conn
      = (Response.httpError msg 500,
         { conn with
           log := conn.log ++ [DbOp.execUpsert title (strBytes (formValue r.form "body"))] }) := by
  simp [saveHandler, Page.save, herr]

/-- Round trip at the store layer: a save on a healthy connection followed by
a load of the same title yields the saved body. -/
theorem load_after_save (conn : Conn) (title : String) (body : List Nat)
    (hok : conn.failure = none) :
    ∃ id, (loadPage title ((Page.save { ID := 0, Title := title, Body := body } conn).2)).1
        = Except.ok { ID := id, Title := title, Body := body } := by
  obtain ⟨r, hr, _, hrb⟩ := selectByTitle_upsert conn.store title body
  refine ⟨r.id, ?_⟩
  rw [save_snd_of_ok _ _ hok]
  simp [loadPage, hok, hr, hrb]

/-- The empty string has no UTF-8 bytes. -/
theorem strBytes_empty : strBytes "" = [] := rfl

/-! ## Claim theorems -/

/-- Claim C1: for every title matching `[a-zA-Z0-9]+` and every byte body,
performing `save(title, body)` on a store and then `load(title)` on the
resulting store succeeds and returns a page whose body is exactly the saved
body (round-trip). -/
theorem save_load_roundtrip (conn : Conn) (title : String) (body : List Nat)
    (ht : isTitle title = true) (hok : conn.failure = none) :
    ∃ id, (loadPage title ((Page.save { ID := 0, Title := title, Body := body } conn).2)).1
        = Except.ok { ID := id, Title := title, Body := body } :=
  load_after_save conn title body hok

/-- Witness for C1 at title `Foo`, body `[7, 8]`, on the empty store. -/
theorem save_load_roundtrip_witness :
    isTitle "Foo" = true
    ∧ ∃ id, (loadPage "Foo" ((Page.save { ID := 0, Title := "Foo", Body := [7, 8] }
          emptyConn).2)).1
        = Except.ok { ID := id, Title := "Foo", Body := [7, 8] } :=
  ⟨by decide, save_load_roundtrip emptyConn "Foo" [7, 8] (by decide) rfl⟩

/-- Claim C2: `save(title, b1)` then `save(title, b2)` then `load(title)`
returns exactly `b2` (full overwrite), and the uniqueness of titles — at most
one body per title — is preserved by saving. -/
theorem save_save_load_overwrite (conn : Conn) (title : String) (b1 b2 : List Nat)
    (hok : conn.failure = none) :
    (∃ id, (loadPage title ((Page.save { ID := 0, Title := title, Body := b2 }
          ((Page.save { ID := 0, Title := title, Body := b1 } conn).2)).2)).1
        = Except.ok { ID := id, Title := title, Body := b2 })
    ∧ (conn.store.uniqueTitles →
        ((Page.save { ID := 0, Title := title, Body := b2 }
          ((Page.save { ID := 0, Title := title, Body := b1 } conn).2)).2).store.uniqueTitles) := by
  have h1 : ((Page.save { ID := 0, Title := title, Body := b1 } conn).2).failure = none := by
    rw [save_snd_failure]
    exact hok
  constructor
  · exact load_after_save _ title b2 h1
  · intro hu
    rw [save_snd_of_ok _ _ h1, save_snd_of_ok _ _ hok]
    exact upsert_uniqueTitles _ _ _ (upsert_uniqueTitles _ _ _ hu)

/-- Witness for C2 at title `Foo`, bodies `[1]` and `[2]`, on the empty
store. -/
theorem save_save_load_overwrite_witness :
    (∃ id, (loadPage "Foo" ((Page.save { ID := 0, Title := "Foo", Body := [2] }
          ((Page.save { ID := 0, Title := "Foo", Body := [1] } emptyConn).2)).2)).1
        = Except.ok { ID := id, Title := "Foo", Body := [2] })
    ∧ ((Page.save { ID := 0, Title := "Foo", Body := [2] }
          ((Page.save { ID := 0, Title := "Foo", Body := [1] } emptyConn).2)).2).store.uniqueTitles :=
  ⟨(save_save_load_overwrite emptyConn "Foo" [1] [2] rfl).1,
   (save_save_load_overwrite emptyConn "Foo" [1] [2] rfl).2 List.Pairwise.nil⟩

/-- Claim C4: the view handler renders the `view` template with the loaded
page when the load succeeds, and on any load error (not-found or storage)
answers a 302 redirect whose location is `/edit/<title>`. -/
theorem viewHandler_spec (r : Request) (title : String) (conn : Conn) :
    (∀ p, (loadPage title conn).1 = Except.ok p →
      (viewHandler r title conn).1 = Response.render "view" p)
    ∧ (∀ e, (loadPage title conn).1 = Except.error e →
      (viewHandler r title conn).1 = Response.redirect ("/edit/" ++ title) 302) := by
  constructor
  · intro p hp
    simp [viewHandler, hp]
  · intro e he
    simp [viewHandler, he]

/-- Witness for C4: a present page renders, a missing page redirects. -/
theorem viewHandler_spec_witness :
    ((loadPage "Foo" connFoo).1 = Except.ok pageFoo
      ∧ (viewHandler req0 "Foo" connFoo).1 = Response.render "view" pageFoo)
    ∧ ((loadPage "Bar" connFoo).1 = Except.error LoadError.noRows
      ∧ (viewHandler req0 "Bar" connFoo).1 = Response.redirect ("/edit/" ++ "Bar") 302) :=
  ⟨⟨rfl, (viewHandler_spec req0 "Foo" connFoo).1 pageFoo rfl⟩,
   ⟨rfl, (viewHandler_spec req0 "Bar" connFoo).2 LoadError.noRows rfl⟩⟩

/-- Claim C5: the save handler reads form field `body`, saves it under the
title, then redirects (302) to `/view/<title>` on success, and answers 500
with the error text (no redirect) on failure. -/
theorem saveHandler_spec (r : Request) (title : String) (conn : Conn) :
    (conn.failure = none →
      saveHandler r title conn
        = (Response.redirect ("/view/" ++ title) 302,
           { conn with
             store := conn.store.upsert title (strBytes (formValue r.form "body")),
             log := conn.log ++ [DbOp.execUpsert title (strBytes (formValue r.form "body"))] }))
    ∧ (∀ msg, conn.failure = some msg →
      saveHandler r title conn
        = (Response.httpError msg 500,
           { conn with
             log := conn.log ++ [DbOp.execUpsert title (strBytes (formValue r.form "body"))] })) :=
  ⟨fun h => saveHandler_ok_eq r title conn h,
   fun msg h => saveHandler_err_eq r title conn msg h⟩

/-- Witness for C5: a successful save redirects, a failing one answers 500. -/
theorem saveHandler_spec_witness :
    saveHandler reqSave "Foo" emptyConn
      = (Response.redirect ("/view/" ++ "Foo") 302,
         { emptyConn with
           store := emptyConn.store.upsert "Foo" (strBytes (formValue reqSave.form "body")),
           log := emptyConn.log ++ [DbOp.execUpsert "Foo" (strBytes (formValue reqSave.form "body"))] })
    ∧ saveHandler reqSave "Foo" connBoom
      = (Response.httpError "boom" 500,
         { connBoom with
           log := connBoom.log ++ [DbOp.execUpsert "Foo" (strBytes (formValue reqSave.form "body"))] }) :=
  ⟨(saveHandler_spec reqSave "Foo" emptyConn).1 rfl,
   (saveHandler_spec reqSave "Foo" connBoom).2 "boom" rfl⟩

/-- Claim C6: the edit handler renders the `edit` template with the loaded
page on success, renders it with the given title and an empty body on any
load failure, and never issues a redirect. -/
theorem editHandler_spec (r : Request) (title : String) (conn : Conn) :
    (∀ p, (loadPage title conn).1 = Except.ok p →
      (editHandler r title conn).1 = Response.render "edit" p)
    ∧ (∀ e, (loadPage title conn).1 = Except.error e →
      (editHandler r title conn).1
        = Response.render "edit" { ID := 0, Title := title, Body := [] })
    ∧ (∀ loc st, (editHandler r title conn).1 ≠ Response.redirect loc st) := by
  refine ⟨?_, ?_, ?_⟩
  · intro p hp
    simp [editHandler, hp]
  · intro e he
    simp [editHandler, he]
  · intro loc st
    cases h : (loadPage title conn).1 <;> simp [editHandler, h]

/-- Witness for C6: a present page prefills the form, a missing one yields
the empty form, and neither case redirects. -/
theorem editHandler_spec_witness :
    ((loadPage "Foo" connFoo).1 = Except.ok pageFoo
      ∧ (editHandler req0 "Foo" connFoo).1 = Response.render "edit" pageFoo)
    ∧ ((loadPage "Bar" connFoo).1 = Except.error LoadError.noRows
      ∧ (editHandler req0 "Bar" connFoo).1
        = Response.render "edit" { ID := 0, Title := "Bar", Body := [] })
    ∧ (editHandler req0 "Bar" connFoo).1 ≠ Response.redirect "/edit/Bar" 302 :=
  ⟨⟨rfl, (editHandler_spec req0 "Foo" connFoo).1 pageFoo rfl⟩,
   ⟨rfl, (editHandler_spec req0 "Bar" connFoo).2.1 LoadError.noRows rfl⟩,
   (editHandler_spec req0 "Bar" connFoo).2.2 "/edit/Bar" 302⟩

/-- Claim C3 (counterexample): `GET /delete/Foo` does not receive a 404 — the
catch-all root handler registered in `main` answers a 302 redirect to
`/view/FrontPage`. -/
theorem delete_foo_not_404 :
    (serve emptyConn { path := "/delete/Foo", form := [] }).1
        = Response.redirect "/view/FrontPage" 302
    ∧ (serve emptyConn { path := "/delete/Foo", form := [] }).1 ≠ Response.notFound := by
  decide

/-- Claim C3 (amended): a request reaches a wiki handler only if its path
matches the anchored pattern; a path under the `/view/`, `/edit/` or `/save/`
prefixes that does not fully match gets 404 with the connection — table,
failure state and statement log — completely untouched, while any path
outside the registered prefixes falls through to the root handler's 302
redirect to `/view/FrontPage` (again with no store operation). -/
theorem unmatched_path_dispatch (conn : Conn) (req : Request)
    (hm : validPathMatch req.path = none) :
    ((muxRoute req.path = Route.view ∨ muxRoute req.path = Route.edit
        ∨ muxRoute req.path = Route.save) →
      serve conn req = (Response.notFound, conn))
    ∧ (muxRoute req.path = Route.root →
      serve conn req = (Response.redirect "/view/FrontPage" 302, conn)) := by
  constructor
  · rintro (h | h | h) <;> simp [serve, h, makeHandler, hm]
  · intro h
    simp [serve, h]

/-- Witness for the amended C3: `GET /save/ab cd` (space in the title) gets a
404 and the connection is untouched. -/
theorem unmatched_path_dispatch_witness :
    validPathMatch "/save/ab cd" = none
    ∧ serve emptyConn { path := "/save/ab cd", form := [] }
        = (Response.notFound, emptyConn) :=
  ⟨by decide,
   (unmatched_path_dispatch emptyConn { path := "/save/ab cd", form := [] }
      (by decide)).1 (Or.inr (Or.inr (by decide)))⟩

/-- Claim C7: loading a title that was never saved (any sequence of saves of
other titles, starting from the empty table) fails with the distinct no-rows
error, and that error is distinguishable from every storage error. -/
theorem load_never_saved (saves : List (String × List Nat)) (title : String)
    (h : ∀ sb ∈ saves, sb.1 ≠ title) :
    (loadPage title (applySaves saves emptyConn)).1 = Except.error LoadError.noRows
    ∧ ∀ msg, (Except.error LoadError.noRows : Except LoadError Page)
        ≠ Except.error (LoadError.storage msg) := by
  have hf : (applySaves saves emptyConn).failure = none := applySaves_failure saves emptyConn
  have hn : ∀ r ∈ (applySaves saves emptyConn).store.rows, r.title ≠ title :=
    applySaves_no_title saves emptyConn title (by simp [emptyConn]) h
  constructor
  · have hs := selectByTitle_eq_none _ title hn
    simp [loadPage, hf, hs]
  · intro msg
    simp

/-- Witness for C7: after saving only `Bar`, loading `Foo` reports no rows. -/
theorem load_never_saved_witness :
    (loadPage "Foo" (applySaves [("Bar", [1])] emptyConn)).1
        = Except.error LoadError.noRows :=
  (load_never_saved [("Bar", [1])] "Foo" (by decide)).1

/-- Claim C8: on an existing page, a save changes only the `body` column: the
`(id, title)` projection of every row is unchanged, rows of other titles are
kept verbatim, and the serial counter does not move. -/
theorem save_updates_only_body (conn : Conn) (title : String) (body : List Nat)
    (hok : conn.failure = none)
    (hex : conn.store.rows.any (fun r => r.title == title) = true) :
    (((Page.save { ID := 0, Title := title, Body := body } conn).2).store.rows.map
        (fun r => (r.id, r.title))
      = conn.store.rows.map (fun r => (r.id, r.title)))
    ∧ (∀ r ∈ conn.store.rows, r.title ≠ title →
        r ∈ ((Page.save { ID := 0, Title := title, Body := body } conn).2).store.rows)
    ∧ ((Page.save { ID := 0, Title := title, Body := body } conn).2).store.nextId
        = conn.store.nextId := by
  rw [save_snd_of_ok _ _ hok]
  refine ⟨?_, ?_, ?_⟩
  · show ((conn.store.upsert title body).rows.map fun r => (r.id, r.title))
        = conn.store.rows.map fun r => (r.id, r.title)
    unfold Store.upsert
    simp only [hex, if_true]
    rw [List.map_map]
    apply List.map_congr_left
    intro a ha
    by_cases hat : a.title = title <;> simp [hat]
  · intro r hr hne
    show r ∈ (conn.store.upsert title body).rows
    unfold Store.upsert
    simp only [hex, if_true]
    exact List.mem_map.mpr ⟨r, hr, by simp [hne]⟩
  · show (conn.store.upsert title body).nextId = conn.store.nextId
    unfold Store.upsert
    simp [hex]

/-- Witness for C8 on the one-page store `connFoo`. -/
theorem save_updates_only_body_witness :
    (((Page.save { ID := 0, Title := "Foo", Body := [9] } connFoo).2).store.rows.map
        (fun r => (r.id, r.title))
      = connFoo.store.rows.map (fun r => (r.id, r.title)))
    ∧ ((Page.save { ID := 0, Title := "Foo", Body := [9] } connFoo).2).store.nextId
        = connFoo.store.nextId :=
  ⟨(save_updates_only_body connFoo "Foo" [9] rfl (by decide)).1,
   (save_updates_only_body connFoo "Foo" [9] rfl (by decide)).2.2⟩

/-- Claim C9: when the form has no `body` field the save handler still saves
the empty body under the title and redirects to `/view/<title>` on success;
an absent field is indistinguishable from an empty one. -/
theorem saveHandler_absent_body (r : Request) (title : String) (conn : Conn)
    (habs : r.form.lookup "body" = none) (hok : conn.failure = none) :
    saveHandler r title conn
      = (Response.redirect ("/view/" ++ title) 302,
         { conn with
           store := conn.store.upsert title [],
           log := conn.log ++ [DbOp.execUpsert title []] })
    ∧ saveHandler r title conn
      = saveHandler { r with form := ("body", "") :: r.form } title conn := by
  have hfv : formValue r.form "body" = "" := by simp [formValue, habs]
  have hfv2 : formValue (("body", "") :: r.form) "body" = "" := by
    simp [formValue, List.lookup]
  constructor
  · have h1 := saveHandler_ok_eq r title conn hok
    rw [hfv, strBytes_empty] at h1
    exact h1
  · rw [saveHandler_ok_eq r title conn hok,
      saveHandler_ok_eq { r with form := ("body", "") :: r.form } title conn hok,
      hfv]
    show _ = (Response.redirect ("/view/" ++ title) 302, _)
    rw [hfv2]

/-- Witness for C9: a form with no fields saves the empty body. -/
theorem saveHandler_absent_body_witness :
    saveHandler { path := "/save/Foo", form := [] } "Foo" emptyConn
      = (Response.redirect ("/view/" ++ "Foo") 302,
         { emptyConn with
           store := emptyConn.store.upsert "Foo" [],
           log := emptyConn.log ++ [DbOp.execUpsert "Foo" []] })
    ∧ saveHandler { path := "/save/Foo", form := [] } "Foo" emptyConn
      = saveHandler { path := "/save/Foo", form := [("body", "")] } "Foo" emptyConn :=
  saveHandler_absent_body { path := "/save/Foo", form := [] } "Foo" emptyConn rfl rfl

/-- Claim C10: requests routed to the view or edit handler leave the table
and the failure state unchanged, and every statement they append to the log
is a read-only select. -/
theorem get_requests_readonly (conn : Conn) (req : Request)
    (h : muxRoute req.path = Route.view ∨ muxRoute req.path = Route.edit) :
    ((serve conn req).2.store = conn.store)
    ∧ ((serve conn req).2.failure = conn.failure)
    ∧ (∃ extra, (serve conn req).2.log = conn.log ++ extra
        ∧ ∀ op ∈ extra, ∃ t, op = DbOp.querySelect t) := by
  have hmk : ∀ fn : Request → String → Conn → Response × Conn,
      (∀ r t c, (fn r t c).2 = (loadPage t c).2) →
      ((makeHandler fn conn req).2.store = conn.store
        ∧ (makeHandler fn conn req).2.failure = conn.failure
        ∧ ∃ extra, (makeHandler fn conn req).2.log = conn.log ++ extra
            ∧ ∀ op ∈ extra, ∃ t, op = DbOp.querySelect t) := by
    intro fn hfn
    cases hm : validPathMatch req.path with
    | none =>
      refine ⟨?_, ?_, [], ?_, ?_⟩ <;> simp [makeHandler, hm]
    | some m =>
      have h2 : (makeHandler fn conn req).2 = (loadPage m.2 conn).2 := by
        simp [makeHandler, hm, hfn]
      rw [h2, loadPage_snd]
      exact ⟨rfl, rfl, [DbOp.querySelect m.2], rfl, by simp⟩
  rcases h with h | h
  · have hv := hmk viewHandler viewHandler_snd
    simpa [serve, h] using hv
  · have he := hmk editHandler editHandler_snd
    simpa [serve, h] using he

/-- Witness for C10: `GET /view/Foo` leaves `connFoo`'s table unchanged and
logs only a select. -/
theorem get_requests_readonly_witness :
    ((serve connFoo { path := "/view/Foo", form := [] }).2.store = connFoo.store)
    ∧ (∃ extra, (serve connFoo { path := "/view/Foo", form := [] }).2.log
        = connFoo.log ++ extra ∧ ∀ op ∈ extra, ∃ t, op = DbOp.querySelect t) :=
  ⟨(get_requests_readonly connFoo { path := "/view/Foo", form := [] }
      (Or.inl (by decide))).1,
   (get_requests_readonly connFoo { path := "/view/Foo", form := [] }
      (Or.inl (by decide))).2.2⟩

end GoWiki

section scratch
open GoWiki

example : strBytes "Hi" = [72, 105] := by decide

example : validPathMatch "/view/Foo" = some ("view", "Foo") := by decide

example : validPathMatch "/save/ab cd" = none := by decide

example : validPathMatch "/delete/Foo" = none := by decide

example : muxRoute "/delete/Foo" = Route.root := by decide

example :
    serve emptyConn { path := "/delete/Foo", form := [] }
      = (Response.redirect "/view/FrontPage" 302, emptyConn) := by decide

end scratch
